import Mathlib

/-!
Shallow embedding of `crawler/crawling/distributed_scheduler.py`
(class `DistributedScheduler` of scrapy-cluster).

Python dicts are modelled as association lists with first-match lookup
and replace-or-append insertion; Redis and the network are passed in as
explicit inputs (the list of matching keys, the blacklist members, the
result of the public-IP HTTP fetch); numbers are rationals; a Python
`KeyError` is modelled by returning `none`.
-/

set_option autoImplicit false

namespace DistSched

/-- First-match lookup in an association list, the model of `d[k]` /
`k in d` on a Python dict. -/
def dictLookup {α : Type} : List (String × α) → String → Option α
  | [], _ => none
  | p :: rest, k => if p.1 == k then some p.2 else dictLookup rest k

/-- Replace-first-or-append insertion, the model of `d[k] = v` on a Python
dict (the dicts built here always have distinct keys). -/
def dictInsert {α : Type} : List (String × α) → String → α → List (String × α)
  | [], k, v => [(k, v)]
  | p :: rest, k, v =>
      if p.1 == k then (k, v) :: rest else p :: dictInsert rest k v

/-- Truncation toward zero, the model of Python `int()` on a number. -/
def pyInt (q : ℚ) : ℤ :=
  if 0 ≤ q then ⌊q⌋ else -⌊-q⌋

/-- The state of a `RedisThrottledQueue` as far as the scheduler reads and
writes it: the `window` and `limit` attributes plus the construction-time
moderation flag and throttle key (queue contents live in Redis). -/
structure ThrottledQueue where
  window : ℚ
  limit : ℚ
  moderated : Bool
  throttle_key : String
  deriving Repr, DecidableEq

/-- A vetted per-domain override as stored in `domain_config`: `window` and
`hits` are present (the vetting in `load_domain_config` requires both),
`scale` is optional. -/
structure DomainItem where
  window : ℚ
  hits : ℚ
  scale : Option ℚ
  deriving Repr, DecidableEq

/-- A raw per-domain entry of the yaml document, before vetting: any of the
three fields may be missing. -/
structure RawItem where
  window : Option ℚ
  hits : Option ℚ
  scale : Option ℚ
  deriving Repr, DecidableEq

/-- The yaml-loaded configuration document: possibly no top-level
`domains` map. -/
structure LoadedConfig where
  domains : Option (List (String × RawItem))
  deriving Repr

/-- The mutable attributes of `DistributedScheduler` that the verified
operations read or write.  `item_retires` is the attribute the constructor
assigns (`self.item_retires = retries`, a typo in the source) while
`item_retries` is the class attribute that `find_item` actually reads. -/
structure SchedState where
  spider_name : String
  window : ℚ
  hits : ℚ
  moderated : Bool
  add_type : Bool
  add_ip : Bool
  my_ip : Option String
  old_ip : Option String
  item_retires : ℕ
  item_retries : ℕ
  domain_config : List (String × DomainItem)
  config_flag : Bool
  queue_dict : List (String × ThrottledQueue)
  queue_keys : List String
  deriving Repr, DecidableEq

/-- `update_ipaddress`: saves the old ip, pre-assigns the local ip
`'127.0.0.1'`, then overwrites it with the fetched public ip when the HTTP
call succeeds; on `IOError` (`fetch = none`) the pre-assigned local ip
stays. -/
def update_ipaddress (s : SchedState) (fetch : Option String) : SchedState :=
  let old := s.my_ip
  let ip : String :=
    match fetch with
    | some body => body
    | none => "127.0.0.1"
  { s with old_ip := old, my_ip := some ip }

/-- `__init__`: records the constructor arguments on the instance (note the
misspelt `self.item_retires = retries`; the class attribute `item_retries`
stays `0`) and performs the first `update_ipaddress` call. -/
def DistributedScheduler_init (retries : ℕ) (hits window : ℚ) (mod : Bool)
    (add_type add_ip : Bool) (first_fetch : Option String) : SchedState :=
  update_ipaddress
    { spider_name := ""
      window := window
      hits := hits
      moderated := mod
      add_type := add_type
      add_ip := add_ip
      my_ip := none
      old_ip := none
      item_retires := retries
      item_retries := 0
      domain_config := []
      config_flag := false
      queue_dict := []
      queue_keys := [] }
    first_fetch

/-- `fit_scale`: clamps a scale into `[0, 1]`. -/
def fit_scale (scale : ℚ) : ℚ :=
  if 1 ≤ scale then 1
  else if scale ≤ 0 then 0
  else scale

/-- The scaled hit limit `int(hits * self.fit_scale(scale))` computed in
`create_queues` and `update_domain_queues` when a `scale` override is
present. -/
def scaledHits (hits scale : ℚ) : ℤ :=
  pyInt (hits * fit_scale scale)

/-- The limit an override entry induces: scaled and truncated when `scale`
is present, the raw `hits` otherwise. -/
def itemLimit (item : DomainItem) : ℚ :=
  match item.scale with
  | some sc => (scaledHits item.hits sc : ℚ)
  | none => item.hits

/-- The queue key `'{name}:{domain}:queue'` built in `update_domain_queues`
and `error_config`. -/
def finalKey (name domain : String) : String :=
  name ++ ":" ++ domain ++ ":queue"

/-- `update_domain_queues`: for every overridden domain whose queue key is
already in `queue_dict`, overwrite that queue's `window` and `limit` from
the override; unknown keys are skipped (`if final_key in self.queue_dict`). -/
def update_domain_queues (s : SchedState) : SchedState :=
  let qd :=
    s.domain_config.foldl
      (fun qd dk =>
        match dictLookup qd (finalKey s.spider_name dk.1) with
        | none => qd
        | some q =>
            dictInsert qd (finalKey s.spider_name dk.1)
              { q with window := dk.2.window, limit := itemLimit dk.2 })
      s.queue_dict
  { s with queue_dict := qd }

/-- The loop body of `error_config`: walk `domain_config`, and for each
domain index `queue_dict[final_key]` — a missing key raises `KeyError`
(`none`); otherwise reset that queue's `window` and `limit` to the
scheduler defaults `w`, `h`. -/
def error_config_go (name : String) (w h : ℚ) :
    List (String × DomainItem) → List (String × ThrottledQueue) →
    Option (List (String × ThrottledQueue))
  | [], qd => some qd
  | dk :: rest, qd =>
      match dictLookup qd (finalKey name dk.1) with
      | none => none
      | some q =>
          error_config_go name w h rest
            (dictInsert qd (finalKey name dk.1)
              { q with window := w, limit := h })

/-- `error_config`: revert every overridden domain's in-memory queue to the
default `window`/`hits` and empty `domain_config`; raises `KeyError`
(`none`) when an overridden domain has no in-memory queue. -/
def error_config (s : SchedState) : Option SchedState :=
  match error_config_go s.spider_name s.window s.hits s.domain_config s.queue_dict with
  | none => none
  | some qd => some { s with queue_dict := qd, domain_config := [] }

/-- The vetting of one raw config entry in `load_domain_config`: kept only
when both `window` and `hits` are present. -/
def vetItem (r : RawItem) : Option DomainItem :=
  match r.window, r.hits with
  | some w, some h => some { window := w, hits := h, scale := r.scale }
  | _, _ => none

/-- `load_domain_config`: replace `domain_config` wholesale with the vetted
entries of the document's `domains` map (empty when the document is `None`
or has no `domains` key) and raise `config_flag`. -/
def load_domain_config (s : SchedState) (loaded : Option LoadedConfig) :
    SchedState :=
  let dc : List (String × DomainItem) :=
    match loaded with
    | none => []
    | some cfg =>
        match cfg.domains with
        | none => []
        | some ds =>
            ds.foldl
              (fun acc p =>
                match vetItem p.2 with
                | some item => acc ++ [(p.1, item)]
                | none => acc)
              []
  { s with domain_config := dc, config_flag := true }

/-- The domain segment `re.split(':', key)[1]` of a queue key. -/
def domainOfKey (key : String) : String :=
  ((key.splitOn ":").drop 1).headD ""

/-- The throttle key composed in `create_queues` from the policy flags:
optionally the spider name, optionally the current public ip, then the
domain segment of the queue key. -/
def throttleKeyFor (s : SchedState) (key : String) : String :=
  let t1 : String := if s.add_type then s.spider_name ++ ":" else ""
  let t2 : String := if s.add_ip then t1 ++ (s.my_ip.getD "") ++ ":" else t1
  t2 ++ domainOfKey key

/-- The `RedisThrottledQueue` that `create_queues` constructs for a queue
key: override `window`/scaled `hits` when the key's domain is overridden,
the scheduler defaults otherwise. -/
def makeQueue (s : SchedState) (key : String) : ThrottledQueue :=
  match dictLookup s.domain_config (domainOfKey key) with
  | none =>
      { window := s.window, limit := s.hits, moderated := s.moderated
        throttle_key := throttleKeyFor s key }
  | some item =>
      { window := item.window, limit := itemLimit item, moderated := s.moderated
        throttle_key := throttleKeyFor s key }

/-- `create_queues`: consume `config_flag` (`check_config`), snapshot the
Redis keys matching `'{spider}:*:queue'` into `queue_keys`, and for every
key that is not yet in `queue_dict` — or for every key when the config just
changed — store a freshly built throttled queue. -/
def create_queues (s : SchedState) (redis_keys : List String) : SchedState :=
  let newConf := s.config_flag
  let s1 := { s with config_flag := false, queue_keys := redis_keys }
  let qd :=
    redis_keys.foldl
      (fun qd key =>
        if (dictLookup qd key).isNone || newConf then
          dictInsert qd key (makeQueue s1 key)
        else qd)
      s1.queue_dict
  { s1 with queue_dict := qd }

/-- `change_config`: a truthy non-empty payload is parsed and applied
(`load_domain_config` + `update_domain_queues`); a `None` or empty payload
triggers `error_config`; either way `create_queues` runs afterwards.
`loaded` is the result of `yaml.safe_load` on the payload (`none` for
documents that load to `None`, e.g. whitespace-only text); `redis_keys` is
the key snapshot `create_queues` will read. -/
def change_config (s : SchedState) (config_string : Option String)
    (loaded : Option LoadedConfig) (redis_keys : List String) :
    Option SchedState :=
  match config_string with
  | some cs =>
      if cs.length > 0 then
        some (create_queues (update_domain_queues (load_domain_config s loaded)) redis_keys)
      else
        match error_config s with
        | none => none
        | some s1 => some (create_queues s1 redis_keys)
  | none =>
      match error_config s with
      | none => none
      | some s1 => some (create_queues s1 redis_keys)

/-- The `meta` fields of a request that `enqueue_request` reads. -/
structure ReqMeta where
  appid : String
  crawlid : String
  spiderid : String
  expires : ℚ
  priority : ℤ
  deriving Repr, DecidableEq

/-- The fields of a scrapy request that `enqueue_request` reads.
`fingerprint` models the deterministic request fingerprint the dupefilter
hashes from method, url, body and headers. -/
structure SchedRequest where
  url : String
  dont_filter : Bool
  meta : ReqMeta
  fingerprint : String
  deriving Repr, DecidableEq

/-- The external inputs of one `enqueue_request` call: the `tldextract`
result on a url as a (domain, suffix) pair, the members of the Redis set
`'{spider}:blacklist'`, and `time.time()`. -/
structure EnqueueEnv where
  extract : String → String × String
  blacklist : List String
  now : ℚ

/-- What one `enqueue_request` call did: dropped by the dupefilter,
rejected by the blacklist, rejected as expired, pushed through the
in-memory throttled queue, or written directly into Redis (`zadd` with the
negated priority as score). -/
inductive EnqueueOutcome where
  | droppedDuplicate
  | blacklisted
  | expired
  | pushedMemory (key : String) (priority : ℤ)
  | pushedRedis (key : String) (score : ℤ)
  deriving Repr, DecidableEq

/-- Adding a member to a Redis set (`sadd`): a no-op when already present. -/
def saddFp (dupe : List String) (fp : String) : List String :=
  if dupe.contains fp then dupe else dupe ++ [fp]

/-- Modelled from the spec: `RFPDupeFilter.request_seen` (the class lives in
`redis_dupefilter`, outside the given source) "returns true iff the
fingerprint is already a member; otherwise it adds the fingerprint and
refreshes the key's TTL".  It returns whether the fingerprint was already
in the set, and the set afterwards contains it either way. -/
def request_seen (dupe : List String) (fp : String) : Bool × List String :=
  (dupe.contains fp, saddFp dupe fp)

/-- The member `'{appid}||{crawlid}'` checked by `is_blacklisted` against
the set `'{spider}:blacklist'`. -/
def blacklistMember (appid crawlid : String) : String :=
  appid ++ "||" ++ crawlid

/-- `is_blacklisted`: set membership of the appid/crawlid pair. -/
def is_blacklisted (blacklist : List String) (appid crawlid : String) : Bool :=
  blacklist.contains (blacklistMember appid crawlid)

/-- The queue key `'{sid}:{dom}.{suf}:queue'` interpolated in
`enqueue_request` from the extracted domain and suffix — the dot separator
is unconditional. -/
def queueKeyOf (sid dom suf : String) : String :=
  sid ++ ":" ++ dom ++ "." ++ suf ++ ":queue"

/-- `enqueue_request`: dupefilter (only when `dont_filter` is false, and
with its side effect on the fingerprint set), then blacklist, then the
queue-key interpolation, then the expiry test `expires == 0 or now <
expires`, then the push — to the in-memory queue when the key is in
`queue_keys`, else straight into Redis.  Returns the dupefilter set after
the call and the outcome. -/
def enqueue_request (s : SchedState) (dupe : List String) (env : EnqueueEnv)
    (r : SchedRequest) : List String × EnqueueOutcome :=
  let step :=
    if r.dont_filter then (false, dupe) else request_seen dupe r.fingerprint
  if step.1 then
    (step.2, EnqueueOutcome.droppedDuplicate)
  else if is_blacklisted env.blacklist r.meta.appid r.meta.crawlid then
    (step.2, EnqueueOutcome.blacklisted)
  else
    let ex := env.extract r.url
    let key := queueKeyOf r.meta.spiderid ex.1 ex.2
    if r.meta.expires = 0 ∨ env.now < r.meta.expires then
      if s.queue_keys.contains key then
        (step.2, EnqueueOutcome.pushedMemory key r.meta.priority)
      else
        (step.2, EnqueueOutcome.pushedRedis key (-r.meta.priority))
    else
      (step.2, EnqueueOutcome.expired)

/-- One pass of `find_item`'s inner `for key in self.queue_keys` loop:
pop each queue in order until one yields an item; also counts the pops
performed. -/
def find_item_pass {α : Type} (pop : String → Option α) :
    List String → Option α × ℕ
  | [] => (none, 0)
  | k :: rest =>
      match pop k with
      | some it => (some it, 1)
      | none =>
          let r := find_item_pass pop rest
          (r.1, r.2 + 1)

/-- The `while count <= self.item_retries` loop of `find_item`, unrolled on
the number of passes still allowed; accumulates the total pop count. -/
def find_item_loop {α : Type} (pop : String → Option α) (keys : List String) :
    ℕ → Option α × ℕ
  | 0 => (none, 0)
  | passes + 1 =>
      match find_item_pass pop keys with
      | (some it, n) => (some it, n)
      | (none, n) =>
          let r := find_item_loop pop keys passes
          (r.1, n + r.2)

/-- `find_item`: up to `self.item_retries + 1` passes over `queue_keys`
(`count` runs from `0` while `count <= self.item_retries`), popping each
throttled queue in turn; `pop` stands for `self.queue_dict[key].pop()`.
The initial `random.shuffle` permutes `queue_keys`; the pass and pop counts
proved below are permutation-invariant, so the state's order stands for the
shuffled order. -/
def find_item {α : Type} (s : SchedState) (pop : String → Option α) :
    Option α × ℕ :=
  find_item_loop pop s.queue_keys (s.item_retries + 1)

/-- A concrete scheduler state — spider `link`, defaults `window = 60`,
`hits = 10`, one overridden domain `d.com` whose in-memory queue runs at
`5`/`2` — used to instantiate the theorems below on concrete inputs. -/
def schedStateA : SchedState :=
  { spider_name := "link", window := 60, hits := 10, moderated := false
    add_type := false, add_ip := false, my_ip := some "127.0.0.1"
    old_ip := none, item_retires := 3, item_retries := 0
    domain_config := [("d.com", { window := 5, hits := 2, scale := none })]
    config_flag := false
    queue_dict := [("link:d.com:queue",
      { window := 5, limit := 2, moderated := false, throttle_key := "d.com" })]
    queue_keys := ["link:d.com:queue"] }

/-- The state `error_config` produces from `schedStateA`: override map
emptied, the overridden queue back at the defaults. -/
def schedStateB : SchedState :=
  { schedStateA with
    domain_config := []
    queue_dict := [("link:d.com:queue",
      { window := 60, limit := 10, moderated := false
        throttle_key := "d.com" })] }

/-- A concrete `enqueue_request` environment whose clock reads `100` and
whose blacklist is empty. -/
def envBoundary : EnqueueEnv :=
  { extract := fun _ => ("d", "com"), blacklist := [], now := 100 }

/-- A concrete unfiltered request whose `expires` equals `envBoundary.now`. -/
def reqBoundary : SchedRequest :=
  { url := "http://d.com/x", dont_filter := true
    meta := { appid := "a", crawlid := "c", spiderid := "link"
              expires := 100, priority := 7 }
    fingerprint := "fpb" }

/-- A concrete environment whose blacklist holds the pair `a||c`. -/
def envBlacklisted : EnqueueEnv :=
  { extract := fun _ => ("d", "com"), blacklist := ["a||c"], now := 100 }

/-- A concrete dedup-filtered request from app `a`, crawl `c`. -/
def reqNoFilter : SchedRequest :=
  { url := "http://d.com/x", dont_filter := false
    meta := { appid := "a", crawlid := "c", spiderid := "link"
              expires := 0, priority := 7 }
    fingerprint := "fp" }

/-- A concrete environment whose public-suffix extraction yields an empty
suffix, as `tldextract` does on `http://localhost/page`. -/
def envLocalhost : EnqueueEnv :=
  { extract := fun _ => ("localhost", ""), blacklist := [], now := 100 }

/-- A concrete never-expiring request for `http://localhost/page` from
spider `s1`. -/
def reqLocalhost : SchedRequest :=
  { url := "http://localhost/page", dont_filter := true
    meta := { appid := "a", crawlid := "c", spiderid := "s1"
              expires := 0, priority := 3 }
    fingerprint := "fpl" }

/-! ## Association-list lemmas -/

theorem dictLookup_dictInsert_self {α : Type} (d : List (String × α))
    (k : String) (v : α) : dictLookup (dictInsert d k v) k = some v := by
  induction d with
  | nil => simp [dictInsert, dictLookup]
  | cons p rest ih =>
      by_cases h : p.1 = k
      · simp [dictInsert, dictLookup, h]
      · simp only [dictInsert, dictLookup, beq_iff_eq, h, if_false, if_neg h]
        exact ih

theorem dictLookup_dictInsert_ne {α : Type} (d : List (String × α))
    (k k' : String) (v : α) (h : k' ≠ k) :
    dictLookup (dictInsert d k v) k' = dictLookup d k' := by
  induction d with
  | nil => simp [dictInsert, dictLookup, Ne.symm h]
  | cons p rest ih =>
      by_cases hp : p.1 = k
      · subst hp
        simp [dictInsert, dictLookup, Ne.symm h]
      · by_cases hp' : p.1 = k'
        · simp [dictInsert, dictLookup, hp, hp', h]
        · simp only [dictInsert, dictLookup, beq_iff_eq, hp, hp', if_neg,
            if_false]
          exact ih

theorem dictLookup_dictInsert {α : Type} (d : List (String × α))
    (k k' : String) (v : α) :
    dictLookup (dictInsert d k v) k' =
      if k' = k then some v else dictLookup d k' := by
  by_cases h : k' = k
  · subst h
    simp [dictLookup_dictInsert_self]
  · simp [h, dictLookup_dictInsert_ne d k k' v h]

theorem isSome_dictLookup_dictInsert {α : Type} (d : List (String × α))
    (k k' : String) (v : α) (h : (dictLookup d k' : Option α).isSome = true) :
    (dictLookup (dictInsert d k v) k').isSome = true := by
  rw [dictLookup_dictInsert]
  by_cases hk : k' = k <;> simp [hk, h]

theorem isSome_dictLookup_dictInsert_present {α : Type}
    (d : List (String × α)) (k k' : String) (v : α)
    (h : (dictLookup d k : Option α).isSome = true) :
    (dictLookup (dictInsert d k v) k').isSome = (dictLookup d k').isSome := by
  rw [dictLookup_dictInsert]
  by_cases hk : k' = k
  · subst hk
    simp [h]
  · simp [hk]

theorem foldl_preserves_isSome {β : Type}
    (step : List (String × ThrottledQueue) → β → List (String × ThrottledQueue))
    (hstep : ∀ qd b k, (dictLookup qd k).isSome = true →
      (dictLookup (step qd b) k).isSome = true) :
    ∀ (l : List β) (qd : List (String × ThrottledQueue)) (k : String),
      (dictLookup qd k).isSome = true →
      (dictLookup (l.foldl step qd) k).isSome = true
  | [], _, _, h => h
  | b :: rest, qd, k, h =>
      foldl_preserves_isSome step hstep rest (step qd b) k (hstep qd b k h)

theorem error_config_go_isSome (name : String) (w h : ℚ) :
    ∀ (dc : List (String × DomainItem))
      (qd qd' : List (String × ThrottledQueue)),
      error_config_go name w h dc qd = some qd' →
      ∀ k, (dictLookup qd' k).isSome = (dictLookup qd k).isSome := by
  intro dc
  induction dc with
  | nil =>
      intro qd qd' hgo k
      simp only [error_config_go, Option.some.injEq] at hgo
      rw [hgo]
  | cons dk rest ih =>
      intro qd qd' hgo k
      cases hl : dictLookup qd (finalKey name dk.1) with
      | none => simp [error_config_go, hl] at hgo
      | some q =>
          simp only [error_config_go, hl] at hgo
          rw [ih _ _ hgo k]
          exact isSome_dictLookup_dictInsert_present qd _ k _ (by simp [hl])

theorem error_config_go_fields (name : String) (w h : ℚ) :
    ∀ (dc : List (String × DomainItem))
      (qd qd' : List (String × ThrottledQueue)),
      error_config_go name w h dc qd = some qd' →
      ∀ k, (∀ q, dictLookup qd k = some q → q.window = w ∧ q.limit = h) →
        ∀ q', dictLookup qd' k = some q' → q'.window = w ∧ q'.limit = h := by
  intro dc
  induction dc with
  | nil =>
      intro qd qd' hgo k hk q' hq'
      simp only [error_config_go, Option.some.injEq] at hgo
      exact hk q' (by rw [hgo]; exact hq')
  | cons dk rest ih =>
      intro qd qd' hgo k hk q' hq'
      cases hl : dictLookup qd (finalKey name dk.1) with
      | none => simp [error_config_go, hl] at hgo
      | some q =>
          simp only [error_config_go, hl] at hgo
          refine ih _ _ hgo k ?_ q' hq'
          intro q0 hq0
          by_cases hkk : k = finalKey name dk.1
          · subst hkk
            rw [dictLookup_dictInsert_self] at hq0
            cases hq0
            exact ⟨rfl, rfl⟩
          · rw [dictLookup_dictInsert_ne qd (finalKey name dk.1) k _ hkk] at hq0
            exact hk q0 hq0

theorem error_config_go_mem (name : String) (w h : ℚ) :
    ∀ (dc : List (String × DomainItem))
      (qd qd' : List (String × ThrottledQueue)),
      error_config_go name w h dc qd = some qd' →
      ∀ d item, (d, item) ∈ dc →
        ∃ q', dictLookup qd' (finalKey name d) = some q'
          ∧ q'.window = w ∧ q'.limit = h := by
  intro dc
  induction dc with
  | nil =>
      intro qd qd' _ d item hmem
      simp at hmem
  | cons dk rest ih =>
      intro qd qd' hgo d item hmem
      cases hl : dictLookup qd (finalKey name dk.1) with
      | none => simp [error_config_go, hl] at hgo
      | some q =>
          simp only [error_config_go, hl] at hgo
          rcases List.mem_cons.mp hmem with hhead | htail
          · have hd1 : dk.1 = d := by rw [← hhead]
            subst hd1
            have hins : dictLookup
                (dictInsert qd (finalKey name dk.1)
                  { q with window := w, limit := h }) (finalKey name dk.1) =
                some { q with window := w, limit := h } :=
              dictLookup_dictInsert_self _ _ _
            have hsome : (dictLookup qd' (finalKey name dk.1)).isSome = true := by
              rw [error_config_go_isSome name w h rest _ _ hgo]
              simp [hins]
            rcases Option.isSome_iff_exists.mp hsome with ⟨q', hq'⟩
            refine ⟨q', hq', ?_⟩
            refine error_config_go_fields name w h rest _ _ hgo
              (finalKey name dk.1) ?_ q' hq'
            intro q0 hq0
            rw [hins] at hq0
            cases hq0
            exact ⟨rfl, rfl⟩
          · exact ih _ _ hgo d item htail

theorem find_item_pass_all_none {α : Type} (keys : List String) :
    find_item_pass (fun _ => (none : Option α)) keys = (none, keys.length) := by
  induction keys with
  | nil => rfl
  | cons k rest ih => simp [find_item_pass, ih]

theorem find_item_loop_all_none {α : Type} (keys : List String) :
    ∀ fuel, find_item_loop (fun _ => (none : Option α)) keys fuel =
      (none, fuel * keys.length) := by
  intro fuel
  induction fuel with
  | zero => simp [find_item_loop]
  | succ n ih =>
      simp [find_item_loop, find_item_pass_all_none, ih, Nat.succ_mul,
        Nat.add_comm]

/-! ## Claim theorems -/

/-- C1: the constructor stores the configured retry count in the misspelt
attribute `item_retires`, while `find_item` reads the class attribute
`item_retries`, which stays `0`; hence for every configured `retries` value
a `find_item` call in which every pop is empty or denied performs exactly
one pass over `queue_keys` (`queue_keys.length` pops), not `retries + 1`
passes as the spec requires. -/
theorem find_item_ignores_configured_retries (retries : ℕ) (hits window : ℚ)
    (mod add_type add_ip : Bool) (first_fetch : Option String)
    (rkeys : List String) :
    (create_queues (DistributedScheduler_init retries hits window mod
        add_type add_ip first_fetch) rkeys).item_retires = retries
    ∧ (create_queues (DistributedScheduler_init retries hits window mod
        add_type add_ip first_fetch) rkeys).item_retries = 0
    ∧ find_item (create_queues (DistributedScheduler_init retries hits window
          mod add_type add_ip first_fetch) rkeys)
        (fun _ => (none : Option Unit)) = (none, rkeys.length) := by
  refine ⟨rfl, rfl, ?_⟩
  have h1 : (create_queues (DistributedScheduler_init retries hits window mod
      add_type add_ip first_fetch) rkeys).queue_keys = rkeys := rfl
  have h2 : (create_queues (DistributedScheduler_init retries hits window mod
      add_type add_ip first_fetch) rkeys).item_retries = 0 := rfl
  rw [find_item, h1, h2]
  simpa using find_item_loop_all_none (α := Unit) rkeys 1

/-- C2 (counterexample): a non-first `update_ipaddress` call whose HTTP
fetch fails with `IOError` does not keep the previously discovered ip
`203.0.113.7`; it leaves the pre-assigned fallback `127.0.0.1` in `my_ip`. -/
theorem update_ipaddress_failure_cex :
    (update_ipaddress
      { spider_name := "link", window := 60, hits := 10, moderated := false
        add_type := false, add_ip := false, my_ip := some "203.0.113.7"
        old_ip := some "127.0.0.1", item_retires := 3, item_retries := 0
        domain_config := [], config_flag := false, queue_dict := []
        queue_keys := [] } none).my_ip = some "127.0.0.1"
    ∧ (some "127.0.0.1" : Option String) ≠ some "203.0.113.7" :=
  ⟨rfl, by decide⟩

/-- C2 (amended): every `update_ipaddress` call whose fetch fails — not
only the first — resets `my_ip` to the fallback `'127.0.0.1'` assigned
before the attempt; the previous ip survives only in `old_ip`, which is
used for change logging. -/
theorem update_ipaddress_failure_resets_to_local (s : SchedState) :
    (update_ipaddress s none).my_ip = some "127.0.0.1"
    ∧ (update_ipaddress s none).old_ip = s.my_ip :=
  ⟨rfl, rfl⟩

/-- C5: the effective hit limit `int(hits * fit_scale(scale))` equals
`hits` when `scale ≥ 1`, equals `0` when `scale ≤ 0`, and equals
`floor(hits * scale)` when `0 < scale < 1`, for every non-negative integer
`hits`. -/
theorem scaledHits_clamps (n : ℕ) (scale : ℚ) :
    (1 ≤ scale → scaledHits (n : ℚ) scale = n)
    ∧ (scale ≤ 0 → scaledHits (n : ℚ) scale = 0)
    ∧ (0 < scale → scale < 1 →
        scaledHits (n : ℚ) scale = ⌊(n : ℚ) * scale⌋) := by
  refine ⟨?_, ?_, ?_⟩
  · intro h
    rw [scaledHits, fit_scale, if_pos h, mul_one, pyInt,
      if_pos (by positivity)]
    exact Int.floor_natCast n
  · intro h
    rw [scaledHits, fit_scale, if_neg (by linarith), if_pos h, mul_zero,
      pyInt, if_pos le_rfl]
    simp
  · intro h0 h1
    rw [scaledHits, fit_scale, if_neg (by linarith), if_neg (by linarith),
      pyInt, if_pos (mul_nonneg (Nat.cast_nonneg n) (le_of_lt h0))]

/-- C5 witness: at `hits = 7`, `scale = 3/5` the scaled limit is
`⌊7 * 3/5⌋`. -/
theorem scaledHits_clamps_witness :
    ((0 : ℚ) < 3 / 5 ∧ (3 / 5 : ℚ) < 1)
    ∧ scaledHits ((7 : ℕ) : ℚ) (3 / 5) = ⌊((7 : ℕ) : ℚ) * (3 / 5)⌋ :=
  ⟨⟨by norm_num, by norm_num⟩,
    (scaledHits_clamps 7 (3 / 5)).2.2 (by norm_num) (by norm_num)⟩

/-- C6: when `error_config` returns, every domain that was overridden has
its in-memory queue's `window` back at the default window and its `limit`
back at the default hits, the override map is empty, and no entry of
`queue_dict` was destroyed. -/
theorem error_config_reverts_to_defaults (s s' : SchedState)
    (h : error_config s = some s') :
    s'.domain_config = []
    ∧ (∀ d item, (d, item) ∈ s.domain_config →
        ∃ q, dictLookup s'.queue_dict (finalKey s.spider_name d) = some q
          ∧ q.window = s.window ∧ q.limit = s.hits)
    ∧ (∀ k, (dictLookup s'.queue_dict k).isSome =
        (dictLookup s.queue_dict k).isSome) := by
  unfold error_config at h
  cases hgo : error_config_go s.spider_name s.window s.hits s.domain_config
      s.queue_dict with
  | none => rw [hgo] at h; cases h
  | some qd' =>
      rw [hgo] at h
      cases h
      refine ⟨rfl, ?_, ?_⟩
      · intro d item hmem
        exact error_config_go_mem _ _ _ _ _ _ hgo d item hmem
      · intro k
        exact error_config_go_isSome _ _ _ _ _ _ hgo k

/-- C6 witness: one overridden domain `d.com` with queue settings `5`/`2`
is reverted to the defaults `60`/`10` by `error_config`. -/
theorem error_config_reverts_to_defaults_witness :
    (schedStateB).domain_config = []
    ∧ (∀ d item, (d, item) ∈ (schedStateA).domain_config →
        ∃ q, dictLookup (schedStateB).queue_dict
            (finalKey (schedStateA).spider_name d) = some q
          ∧ q.window = (schedStateA).window ∧ q.limit = (schedStateA).hits)
    ∧ (∀ k, (dictLookup (schedStateB).queue_dict k).isSome =
        (dictLookup (schedStateA).queue_dict k).isSome) :=
  error_config_reverts_to_defaults schedStateA schedStateB (by decide)

theorem create_queues_isSome_mono (s : SchedState) (rkeys : List String)
    (k : String) (h : (dictLookup s.queue_dict k).isSome = true) :
    (dictLookup (create_queues s rkeys).queue_dict k).isSome = true := by
  simp only [create_queues]
  refine foldl_preserves_isSome _ ?_ rkeys s.queue_dict k h
  intro qd b kk hh
  dsimp only
  split
  · exact isSome_dictLookup_dictInsert _ _ _ _ hh
  · exact hh

theorem update_domain_queues_isSome_mono (s : SchedState) (k : String)
    (h : (dictLookup s.queue_dict k).isSome = true) :
    (dictLookup (update_domain_queues s).queue_dict k).isSome = true := by
  simp only [update_domain_queues]
  refine foldl_preserves_isSome _ ?_ s.domain_config s.queue_dict k h
  intro qd dk kk hh
  dsimp only
  split
  · exact hh
  · exact isSome_dictLookup_dictInsert _ _ _ _ hh

theorem error_config_isSome_mono (s s' : SchedState)
    (h : error_config s = some s') (k : String)
    (hk : (dictLookup s.queue_dict k).isSome = true) :
    (dictLookup s'.queue_dict k).isSome = true := by
  unfold error_config at h
  cases hgo : error_config_go s.spider_name s.window s.hits s.domain_config
      s.queue_dict with
  | none => rw [hgo] at h; cases h
  | some qd' =>
      rw [hgo] at h
      cases h
      rw [error_config_go_isSome _ _ _ _ _ _ hgo k]
      exact hk

theorem load_domain_config_queue_dict (s : SchedState)
    (loaded : Option LoadedConfig) :
    (load_domain_config s loaded).queue_dict = s.queue_dict := rfl

theorem change_config_isSome_mono (s : SchedState)
    (config_string : Option String) (loaded : Option LoadedConfig)
    (rkeys : List String) (s' : SchedState)
    (h : change_config s config_string loaded rkeys = some s') (k : String)
    (hk : (dictLookup s.queue_dict k).isSome = true) :
    (dictLookup s'.queue_dict k).isSome = true := by
  cases config_string with
  | some cs =>
      by_cases hlen : cs.length > 0
      · simp only [change_config, if_pos hlen, Option.some.injEq] at h
        rw [← h]
        refine create_queues_isSome_mono _ rkeys k ?_
        refine update_domain_queues_isSome_mono _ k ?_
        rw [load_domain_config_queue_dict]
        exact hk
      · simp only [change_config, if_neg hlen] at h
        cases hec : error_config s with
        | none => rw [hec] at h; cases h
        | some s1 =>
            rw [hec] at h
            cases h
            exact create_queues_isSome_mono _ rkeys k
              (error_config_isSome_mono s s1 hec k hk)
  | none =>
      simp only [change_config] at h
      cases hec : error_config s with
      | none => rw [hec] at h; cases h
      | some s1 =>
          rw [hec] at h
          cases h
          exact create_queues_isSome_mono _ rkeys k
            (error_config_isSome_mono s s1 hec k hk)

/-- C7: no scheduler operation removes an entry from the in-memory queue
map: `create_queues`, `update_domain_queues`, `error_config` (when it
returns) and `change_config` (when it returns) all preserve every existing
`queue_dict` key. -/
theorem queue_dict_entries_never_removed :
    (∀ (s : SchedState) (rkeys : List String) (k : String),
      (dictLookup s.queue_dict k).isSome = true →
      (dictLookup (create_queues s rkeys).queue_dict k).isSome = true)
    ∧ (∀ (s : SchedState) (k : String),
      (dictLookup s.queue_dict k).isSome = true →
      (dictLookup (update_domain_queues s).queue_dict k).isSome = true)
    ∧ (∀ (s s' : SchedState), error_config s = some s' →
      ∀ k, (dictLookup s.queue_dict k).isSome = true →
      (dictLookup s'.queue_dict k).isSome = true)
    ∧ (∀ (s : SchedState) (config_string : Option String)
        (loaded : Option LoadedConfig) (rkeys : List String)
        (s' : SchedState),
      change_config s config_string loaded rkeys = some s' →
      ∀ k, (dictLookup s.queue_dict k).isSome = true →
      (dictLookup s'.queue_dict k).isSome = true) :=
  ⟨create_queues_isSome_mono,
    update_domain_queues_isSome_mono,
    fun s s' h k hk => error_config_isSome_mono s s' h k hk,
    fun s cs loaded rkeys s' h k hk =>
      change_config_isSome_mono s cs loaded rkeys s' h k hk⟩

/-- C7 witness: the key `link:d.com:queue` survives `create_queues` on an
empty Redis snapshot, `update_domain_queues`, `error_config` and a
whitespace `change_config` on the concrete state `schedStateA`. -/
theorem queue_dict_entries_never_removed_witness :
    (dictLookup (create_queues schedStateA []).queue_dict
      "link:d.com:queue").isSome = true
    ∧ (dictLookup (update_domain_queues schedStateA).queue_dict
      "link:d.com:queue").isSome = true
    ∧ (dictLookup schedStateB.queue_dict "link:d.com:queue").isSome = true
    ∧ (dictLookup (create_queues schedStateB []).queue_dict
      "link:d.com:queue").isSome = true :=
  ⟨queue_dict_entries_never_removed.1 schedStateA [] "link:d.com:queue"
      (by decide),
    queue_dict_entries_never_removed.2.1 schedStateA "link:d.com:queue"
      (by decide),
    queue_dict_entries_never_removed.2.2.1 schedStateA schedStateB (by decide)
      "link:d.com:queue" (by decide),
    queue_dict_entries_never_removed.2.2.2 schedStateA none none []
      (create_queues schedStateB []) (by decide) "link:d.com:queue"
      (by decide)⟩

theorem error_config_go_none (name : String) (w h : ℚ) :
    ∀ (dc : List (String × DomainItem))
      (qd : List (String × ThrottledQueue)) (d : String) (item : DomainItem),
      (d, item) ∈ dc → dictLookup qd (finalKey name d) = none →
      error_config_go name w h dc qd = none := by
  intro dc
  induction dc with
  | nil =>
      intro qd d item hmem _
      simp at hmem
  | cons dk rest ih =>
      intro qd d item hmem hnone
      cases hl : dictLookup qd (finalKey name dk.1) with
      | none => simp [error_config_go, hl]
      | some q =>
          rcases List.mem_cons.mp hmem with hhead | htail
          · have hd1 : dk.1 = d := by rw [← hhead]
            rw [hd1] at hl
            rw [hl] at hnone
            cases hnone
          · simp only [error_config_go, hl]
            refine ih _ d item htail ?_
            have hne : finalKey name d ≠ finalKey name dk.1 := by
              intro heq
              rw [heq, hl] at hnone
              cases hnone
            rw [dictLookup_dictInsert_ne _ _ _ _ hne]
            exact hnone

/-- C8: when some overridden domain has no in-memory queue under
`'{spider}:{domain}:queue'`, `error_config` raises `KeyError` (modelled as
`none`): unlike `update_domain_queues` it indexes `queue_dict` without a
membership guard. -/
theorem error_config_keyerror_on_unknown_domain (s : SchedState) (d : String)
    (item : DomainItem) (hmem : (d, item) ∈ s.domain_config)
    (hnone : dictLookup s.queue_dict (finalKey s.spider_name d) = none) :
    error_config s = none := by
  unfold error_config
  rw [error_config_go_none s.spider_name s.window s.hits s.domain_config
    s.queue_dict d item hmem hnone]

/-- C8 witness: a state whose override map names `ghost.com` while
`queue_dict` is empty makes `error_config` raise. -/
theorem error_config_keyerror_on_unknown_domain_witness :
    error_config
      { spider_name := "link", window := 60, hits := 10, moderated := false
        add_type := false, add_ip := false, my_ip := some "127.0.0.1"
        old_ip := none, item_retires := 3, item_retries := 0
        domain_config := [("ghost.com",
          { window := 5, hits := 2, scale := none })]
        config_flag := false, queue_dict := [], queue_keys := [] } = none :=
  error_config_keyerror_on_unknown_domain _ "ghost.com"
    { window := 5, hits := 2, scale := none } (by decide) (by decide)

/-- C4 (counterexample): a non-duplicate, non-blacklisted request whose
`meta.expires` equals the current time (`100 = now`, nonzero) is rejected
as expired, not enqueued: the code inserts only when `now < expires`. -/
theorem enqueue_request_expiry_boundary_cex :
    (enqueue_request schedStateA [] envBoundary reqBoundary).2 =
      EnqueueOutcome.expired
    ∧ (100 : ℚ) ≠ 0 := by
  constructor
  · decide
  · norm_num

/-- C4 (amended): a non-duplicate, non-blacklisted request is rejected on
expiry exactly when `meta.expires ≠ 0` and `now ≥ meta.expires`; at
`now = meta.expires` it is rejected, not pushed. -/
theorem enqueue_request_expiry_boundary (s : SchedState) (dupe : List String)
    (env : EnqueueEnv) (r : SchedRequest)
    (hnd : r.dont_filter = true ∨ dupe.contains r.fingerprint = false)
    (hb : is_blacklisted env.blacklist r.meta.appid r.meta.crawlid = false) :
    (enqueue_request s dupe env r).2 = EnqueueOutcome.expired
      ↔ (r.meta.expires ≠ 0 ∧ r.meta.expires ≤ env.now) := by
  have hstep : (if r.dont_filter then (false, dupe)
      else request_seen dupe r.fingerprint).1 = false := by
    rcases hnd with h | h
    · simp [h]
    · cases hdf : r.dont_filter
      · simp only [request_seen, Bool.false_eq_true, if_false]
        exact h
      · simp
  simp only [enqueue_request]
  rw [hstep]
  simp only [Bool.false_eq_true, if_false, hb]
  by_cases hexp : r.meta.expires = 0 ∨ env.now < r.meta.expires
  · rw [if_pos hexp]
    constructor
    · intro hout
      split at hout <;> simp at hout
    · rintro ⟨hne, hle⟩
      rcases hexp with he | hlt
      · exact absurd he hne
      · exact absurd hle (not_le.mpr hlt)
  · rw [if_neg hexp]
    push_neg at hexp
    constructor
    · intro _
      exact hexp
    · intro _
      rfl

/-- C4 witness: the amended expiry rule evaluated at the boundary request
(`expires = now = 100`). -/
theorem enqueue_request_expiry_boundary_witness :
    (enqueue_request schedStateA [] envBoundary reqBoundary).2 =
      EnqueueOutcome.expired
      ↔ ((100 : ℚ) ≠ 0 ∧ (100 : ℚ) ≤ 100) :=
  enqueue_request_expiry_boundary schedStateA [] envBoundary reqBoundary
    (Or.inl rfl) (by decide)

theorem saddFp_contains (dupe : List String) (fp : String) :
    (saddFp dupe fp).contains fp = true := by
  unfold saddFp
  split_ifs with h
  · exact h
  · simp

theorem enqueue_request_fst (s : SchedState) (dupe : List String)
    (env : EnqueueEnv) (r : SchedRequest) :
    (enqueue_request s dupe env r).1 =
      if r.dont_filter then dupe else saddFp dupe r.fingerprint := by
  cases hdf : r.dont_filter <;>
    simp only [enqueue_request, request_seen, hdf, Bool.false_eq_true,
      if_false, if_true] <;>
    split_ifs <;> rfl

/-- C9: for a request with `dont_filter` false, `enqueue_request` runs the
dupefilter before the blacklist and expiry checks, so the fingerprint is
recorded in the dedup set whatever the outcome, and an identical request
submitted afterwards is dropped by the duplicate check. -/
theorem enqueue_request_records_fingerprint (s : SchedState)
    (dupe : List String) (env : EnqueueEnv) (r : SchedRequest)
    (h : r.dont_filter = false) :
    (enqueue_request s dupe env r).1.contains r.fingerprint = true
    ∧ (enqueue_request s (enqueue_request s dupe env r).1 env r).2 =
        EnqueueOutcome.droppedDuplicate := by
  have h1 : (enqueue_request s dupe env r).1.contains r.fingerprint
      = true := by
    rw [enqueue_request_fst, h]
    simpa using saddFp_contains dupe r.fingerprint
  refine ⟨h1, ?_⟩
  set d1 := (enqueue_request s dupe env r).1 with hd1
  have h1m : r.fingerprint ∈ d1 := by simpa using h1
  simp [enqueue_request, request_seen, h, h1m]

/-- C9 witness: a blacklisted request with `dont_filter` false still lands
its fingerprint in the dedup set, and resubmitting it is dropped as a
duplicate, not re-evaluated. -/
theorem enqueue_request_records_fingerprint_witness :
    ((enqueue_request schedStateA [] envBlacklisted reqNoFilter).1.contains
        reqNoFilter.fingerprint = true
      ∧ (enqueue_request schedStateA
          (enqueue_request schedStateA [] envBlacklisted reqNoFilter).1
          envBlacklisted reqNoFilter).2 = EnqueueOutcome.droppedDuplicate)
    ∧ (enqueue_request schedStateA [] envBlacklisted reqNoFilter).2 =
        EnqueueOutcome.blacklisted :=
  ⟨enqueue_request_records_fingerprint schedStateA [] envBlacklisted
      reqNoFilter rfl,
    by decide⟩

theorem queueKeyOf_empty_suffix (sid dom : String) :
    queueKeyOf sid dom "" = sid ++ ":" ++ dom ++ ".:queue" := by
  unfold queueKeyOf
  rw [String.append_empty, String.append_assoc]
  rfl

/-- C10: when the public-suffix extraction of a request url yields an empty
suffix (as for `http://localhost/page`), the interpolated queue key keeps
the unconditional dot and ends in `.:queue`; a pushable request whose key
is not in `queue_keys` is written to Redis under that trailing-dot key. -/
theorem enqueue_request_trailing_dot_key (s : SchedState)
    (dupe : List String) (env : EnqueueEnv) (r : SchedRequest) (dom : String)
    (hx : env.extract r.url = (dom, ""))
    (hd : r.dont_filter = true)
    (hb : is_blacklisted env.blacklist r.meta.appid r.meta.crawlid = false)
    (he : r.meta.expires = 0)
    (hk : s.queue_keys.contains (r.meta.spiderid ++ ":" ++ dom ++ ".:queue")
      = false) :
    (enqueue_request s dupe env r).2 =
      EnqueueOutcome.pushedRedis (r.meta.spiderid ++ ":" ++ dom ++ ".:queue")
        (-r.meta.priority) := by
  have hkey : queueKeyOf r.meta.spiderid (env.extract r.url).1
      (env.extract r.url).2 = r.meta.spiderid ++ ":" ++ dom ++ ".:queue" := by
    rw [hx]
    exact queueKeyOf_empty_suffix _ _
  simp only [enqueue_request, hd, if_true, Bool.false_eq_true, if_false, hb]
  rw [hkey]
  rw [if_pos (Or.inl he)]
  rw [if_neg (by simpa using hk)]

/-- C10 witness: `http://localhost/page` (domain `localhost`, empty suffix)
pushed by spider `s1` lands in the Redis key `s1:localhost.:queue`. -/
theorem enqueue_request_trailing_dot_key_witness :
    (enqueue_request schedStateA [] envLocalhost reqLocalhost).2 =
      EnqueueOutcome.pushedRedis "s1:localhost.:queue" (-3) :=
  enqueue_request_trailing_dot_key schedStateA [] envLocalhost reqLocalhost
    "localhost" rfl rfl (by decide) rfl (by decide)

theorem dictLookup_foldl_insert_all {α : Type} (f : String → α) :
    ∀ (l : List String) (qd : List (String × α)) (k : String),
      dictLookup (l.foldl (fun qd key => dictInsert qd key (f key)) qd) k =
        if k ∈ l then some (f k) else dictLookup qd k := by
  intro l
  induction l with
  | nil =>
      intro qd k
      simp
  | cons a t ih =>
      intro qd k
      simp only [List.foldl_cons]
      rw [ih]
      by_cases hkt : k ∈ t
      · simp [hkt, List.mem_cons]
      · by_cases hka : k = a
        · simp [hkt, hka, dictLookup_dictInsert_self]
        · simp [hkt, hka, List.mem_cons,
            dictLookup_dictInsert_ne _ _ _ _ hka]

/-- C3 (counterexample): a whitespace-only payload delivered to
`change_config` on a state with overridden domain `d.com` (queue at
`5`/`2`, defaults `60`/`10`) while the Redis snapshot no longer lists the
queue key: the in-memory queue keeps `window = 5` instead of reverting to
the default `60`, so the effect is not that of `error_config`. -/
theorem change_config_whitespace_cex :
    (change_config schedStateA (some " ") none []).map
        (fun s1 => (dictLookup s1.queue_dict "link:d.com:queue").map
          ThrottledQueue.window) = some (some 5)
    ∧ (5 : ℚ) ≠ 60 := by
  constructor
  · decide
  · norm_num

/-- C3 (amended): a non-empty whitespace-only payload is truthy, so
`change_config` takes the config branch: the payload yaml-loads to `None`,
`domain_config` becomes empty, the config flag is raised, and the ensuing
`create_queues` rebuilds every queue whose key is in the current Redis
snapshot with the default window and hits; in-memory queues whose keys are
absent from the snapshot keep their previous settings (unlike
`error_config`, which resets every overridden domain's queue directly). -/
theorem change_config_whitespace_effect (s : SchedState) (cs : String)
    (rkeys : List String) (h : cs.length > 0) :
    ∃ s', change_config s (some cs) none rkeys = some s'
      ∧ s'.domain_config = []
      ∧ (∀ k, k ∈ rkeys → ∃ q, dictLookup s'.queue_dict k = some q
          ∧ q.window = s.window ∧ q.limit = s.hits)
      ∧ (∀ k, k ∉ rkeys → dictLookup s'.queue_dict k =
          dictLookup s.queue_dict k) := by
  refine ⟨create_queues (update_domain_queues (load_domain_config s none))
      rkeys, ?_, rfl, ?_, ?_⟩
  · simp only [change_config]
    rw [if_pos h]
  all_goals
    have hcf : (update_domain_queues (load_domain_config s none)).config_flag
        = true := rfl
    have hqd : (create_queues (update_domain_queues
        (load_domain_config s none)) rkeys).queue_dict =
        rkeys.foldl
          (fun qd key => dictInsert qd key
            (makeQueue { update_domain_queues (load_domain_config s none) with
              config_flag := false, queue_keys := rkeys } key))
          s.queue_dict := by
      simp only [create_queues, hcf, Bool.or_true, if_true]
      rfl
  · intro k hk
    rw [hqd, dictLookup_foldl_insert_all, if_pos hk]
    exact ⟨_, rfl, rfl, rfl⟩
  · intro k hk
    rw [hqd, dictLookup_foldl_insert_all, if_neg hk]

/-- C3 witness: the amended description evaluated on `schedStateA` with the
payload `" "` and a snapshot still listing `link:d.com:queue`. -/
theorem change_config_whitespace_effect_witness :
    ∃ s', change_config schedStateA (some " ") none ["link:d.com:queue"]
        = some s'
      ∧ s'.domain_config = []
      ∧ (∀ k, k ∈ ["link:d.com:queue"] →
          ∃ q, dictLookup s'.queue_dict k = some q
            ∧ q.window = schedStateA.window ∧ q.limit = schedStateA.hits)
      ∧ (∀ k, k ∉ ["link:d.com:queue"] → dictLookup s'.queue_dict k =
          dictLookup schedStateA.queue_dict k) :=
  change_config_whitespace_effect schedStateA " " ["link:d.com:queue"]
    (by decide)

end DistSched
